import Mathlib

/-!
Verification of the Ghar-Kheti dashboard against its specification.

The repository ships a Streamlit dashboard (app.py) whose fetch layer is
embedded below from the source.  The interpretation engine (soil-moisture
calibration, band classifiers, weather-code lookup) described by the
specification lives in revisions of the repository that are not part of
the checked sources, so those functions are modelled from the
specification text.  Real-number sensor values are embedded as rationals.
-/

namespace GharKheti

/-- Modelled from the spec: the soil-moisture calibration function,
absent from the checked sources.  Equal bounds return 0.  Otherwise the
numerically larger bound is dry (0 percent) and the smaller is wet
(100 percent); the raw reading is clamped into the interval, linearly
interpolated with inversion so that the wet bound maps to 100, and the
result is clamped again into the interval from 0 to 100. -/
def calibrate (raw bound_a bound_b : ℚ) : ℚ :=
  if bound_a = bound_b then 0
  else
    let dry := max bound_a bound_b
    let wet := min bound_a bound_b
    let clamped := min (max raw wet) dry
    let pct := (dry - clamped) / (dry - wet) * 100
    min (max pct 0) 100

/-- Modelled from the spec: the temperature band classifier, absent from
the checked sources.  Half-open bands with boundaries 15, 20, 28, 35. -/
def classify_temperature (t : ℚ) : String :=
  if t < 15 then "Cold"
  else if t < 20 then "Cool"
  else if t < 28 then "Optimal"
  else if t < 35 then "Warm"
  else "Hot"

/-- Modelled from the spec: the humidity band classifier, absent from
the checked sources.  Half-open bands with boundaries 40, 60, 80. -/
def classify_humidity (h : ℚ) : String :=
  if h < 40 then "Dry"
  else if h < 60 then "Optimal"
  else if h < 80 then "Humid"
  else "Very Humid"

/-- Modelled from the spec: the pH band classifier, absent from the
checked sources.  Values outside the interval from 0 to 14 short-circuit
to Invalid before any band comparison; in-domain values use half-open
bands with boundaries 5.5, 6.5, 7.5. -/
def classify_ph (p : ℚ) : String :=
  if p < 0 ∨ 14 < p then "Invalid"
  else if p < (11 : ℚ) / 2 then "Very Acidic"
  else if p < (13 : ℚ) / 2 then "Acidic"
  else if p < (15 : ℚ) / 2 then "Neutral"
  else "Alkaline"

/-- Modelled from the spec: the weather-code lookup, absent from the
checked sources.  The spec fixes the key set (the enumerated WMO subset),
the pair for code 0 (Clear sky with a sun symbol) and the fallback pair
(Unknown with an empty symbol); the remaining descriptions follow the
standard WMO phrases the spec refers to. -/
def describe_weather (code : ℤ) : String × String :=
  if code = 0 then ("Clear sky", "☀️")
  else if code = 1 then ("Mainly clear", "🌤️")
  else if code = 2 then ("Partly cloudy", "⛅")
  else if code = 3 then ("Overcast", "☁️")
  else if code = 45 then ("Fog", "🌫️")
  else if code = 48 then ("Depositing rime fog", "🌫️")
  else if code = 51 then ("Light drizzle", "🌦️")
  else if code = 53 then ("Moderate drizzle", "🌦️")
  else if code = 55 then ("Dense drizzle", "🌧️")
  else if code = 61 then ("Slight rain", "🌧️")
  else if code = 63 then ("Moderate rain", "🌧️")
  else if code = 65 then ("Heavy rain", "🌧️")
  else if code = 80 then ("Slight rain showers", "🌦️")
  else if code = 81 then ("Moderate rain showers", "🌧️")
  else if code = 82 then ("Violent rain showers", "⛈️")
  else if code = 95 then ("Thunderstorm", "⛈️")
  else ("Unknown", "")

/-- The enumerated WMO subset named by the spec as the key set of the
weather-code mapping. -/
def wmoCodes : List ℤ := [0, 1, 2, 3, 45, 48, 51, 53, 55, 61, 63, 65, 80, 81, 82, 95]

/-- One record of the ThingSpeak feeds array, embedded from app.py after
the to-numeric coercion with errors coerce: a field value that is absent
or fails numeric conversion becomes none (NaN), a parsed value becomes
some q.  The created-at timestamp is embedded as epoch seconds after the
timezone conversion. -/
structure Feed where
  created_at : ℤ
  field1 : Option ℚ
  field2 : Option ℚ
  field3 : Option ℚ
  field4 : Option ℚ
deriving DecidableEq

/-- One row of the processed farm DataFrame, after the column rename of
field1 through field4 to Temperature, Humidity, Soil_Moisture and pH. -/
structure Row where
  created_at : ℤ
  Temperature : Option ℚ
  Humidity : Option ℚ
  Soil_Moisture : Option ℚ
  pH : Option ℚ
deriving DecidableEq

/-- The exception classes caught by the except clause of
get_thingspeak_data in app.py. -/
inductive FetchError where
  | requestException
  | keyError
  | valueError
deriving DecidableEq

/-- The decoded ThingSpeak JSON body: the feeds key may be absent
(none), present but empty, or present with records. -/
structure TSResponse where
  feeds : Option (List Feed)
deriving DecidableEq

/-- The column rename of app.py: field1 is Temperature, field2 is
Humidity, field3 is Soil_Moisture, field4 is pH. -/
def renameFields (f : Feed) : Row :=
  ⟨f.created_at, f.field1, f.field2, f.field3, f.field4⟩

/-- The dropna call of app.py with subset Temperature, Humidity and
Soil_Moisture: rows missing any of the three are dropped; pH is not in
the subset. -/
def dropna (rows : List Row) : List Row :=
  rows.filter fun r => r.Temperature.isSome && r.Humidity.isSome && r.Soil_Moisture.isSome

/-- get_thingspeak_data from app.py: a raised exception of any caught
class returns an empty DataFrame, a missing or empty feeds field returns
an empty DataFrame, and otherwise the feeds are renamed, coerced and
filtered by dropna. -/
def get_thingspeak_data (resp : Except FetchError TSResponse) : List Row :=
  match resp with
  | .error _ => []
  | .ok data =>
    match data.feeds with
    | none => []
    | some [] => []
    | some feeds => dropna (feeds.map renameFields)

/-- get_weather_data from app.py: a request exception (the only caught
class there) returns an empty dict; otherwise the decoded JSON dict is
returned whole. -/
def get_weather_data (resp : Except Unit (List (String × ℚ))) : List (String × ℚ) :=
  match resp with
  | .error _ => []
  | .ok json => json

/-- The guard at the top of the main layout in app.py: when the farm
DataFrame is empty, the dashboard shows the no-data warning instead of
the metric tiles. -/
def shows_no_data_placeholder (farm_data : List Row) : Bool :=
  farm_data.isEmpty

/-- The date filter of main in app.py for a complete two-date range:
start and finish are midnight timestamps of the chosen dates, one day is
added to the finish, and the loc label slice keeps rows whose index lies
between the two bounds inclusively. -/
def secondsPerDay : ℤ := 86400

/-- The loc slice farm_data.loc[start_datetime:end_datetime] of app.py,
embedded over epoch-second timestamps: label slicing keeps every row
whose index is between the two labels inclusively. -/
def filterByDateRange (rows : List Row) (startDay endDay : ℤ) : List Row :=
  rows.filter fun r =>
    decide (startDay ≤ r.created_at) && decide (r.created_at ≤ endDay + secondsPerDay)

/-- Claim C1: for every rational raw reading and every pair of rational
calibration bounds, the calibration function returns a value in the
closed interval from 0 to 100, regardless of the input range or of which
bound is numerically larger.  Totality over the rationals embeds the
never-NaN, never-infinite guarantee. -/
theorem calibrate_range (raw a b : ℚ) :
    0 ≤ calibrate raw a b ∧ calibrate raw a b ≤ 100 := by
  unfold calibrate
  split
  · norm_num
  · constructor
    · exact le_min (le_max_right _ _) (by norm_num)
    · exact min_le_right _ _

/-- Claim C2: calling the calibration function with the two calibration
bounds numerically equal does not divide by zero and deterministically
returns 0. -/
theorem calibrate_equal_bounds (raw x : ℚ) : calibrate raw x x = 0 := by
  simp [calibrate]

/-- Claim C3: holding the two calibration bounds fixed and distinct, the
calibration function is monotonic (here non-increasing, the convention in
which the larger bound is dry) in the raw reading, and constant beyond
either bound: 100 at or below the smaller bound, 0 at or above the
larger. -/
theorem calibrate_monotone (a b : ℚ) (hab : a ≠ b) :
    (∀ r1 r2 : ℚ, r1 ≤ r2 → calibrate r2 a b ≤ calibrate r1 a b) ∧
    (∀ r : ℚ, r ≤ min a b → calibrate r a b = 100) ∧
    (∀ r : ℚ, max a b ≤ r → calibrate r a b = 0) := by
  have hwd : min a b < max a b := min_lt_max.mpr hab
  refine ⟨?_, ?_, ?_⟩
  · intro r1 r2 h12
    simp only [calibrate, if_neg hab]
    have hc : min (max r1 (min a b)) (max a b) ≤ min (max r2 (min a b)) (max a b) :=
      min_le_min (max_le_max h12 le_rfl) le_rfl
    have hdenom : (0 : ℚ) < max a b - min a b := by linarith
    refine min_le_min (max_le_max ?_ le_rfl) le_rfl
    refine mul_le_mul_of_nonneg_right ?_ (by norm_num)
    gcongr
  · intro r hr
    simp only [calibrate, if_neg hab]
    rw [max_eq_right hr, min_eq_left hwd.le,
      div_self (by linarith : max a b - min a b ≠ 0)]
    norm_num
  · intro r hr
    simp only [calibrate, if_neg hab]
    rw [max_eq_left (hwd.le.trans hr), min_eq_right hr, sub_self, zero_div, zero_mul]
    norm_num

/-- Closed witness for the monotonicity and clamping claim at concrete
inputs, with bounds 0 and 10. -/
theorem calibrate_monotone_witness :
    calibrate 5 0 10 ≤ calibrate 2 0 10 ∧
    calibrate (-3) 0 10 = 100 ∧ calibrate 12 0 10 = 0 :=
  ⟨(calibrate_monotone 0 10 (by norm_num)).1 2 5 (by norm_num),
   (calibrate_monotone 0 10 (by norm_num)).2.1 (-3) (by simp),
   (calibrate_monotone 0 10 (by norm_num)).2.2 12 (by simp; norm_num)⟩

/-- Claim C4: the temperature classifier is total over the rationals with
half-open bands: Cold below 15 (for example at 14.999), Cool at exactly
15, Warm on the band from 28 up to but excluding 35 (for example at
34.999), and Hot at exactly 35 and above. -/
theorem classify_temperature_bands :
    (∀ t : ℚ, t < 15 → classify_temperature t = "Cold") ∧
    classify_temperature 15 = "Cool" ∧
    (∀ t : ℚ, 28 ≤ t → t < 35 → classify_temperature t = "Warm") ∧
    (∀ t : ℚ, 35 ≤ t → classify_temperature t = "Hot") ∧
    classify_temperature (14.999 : ℚ) = "Cold" ∧
    classify_temperature (34.999 : ℚ) = "Warm" := by
  refine ⟨?_, by norm_num [classify_temperature], ?_, ?_,
    by norm_num [classify_temperature], by norm_num [classify_temperature]⟩
  · intro t h
    simp [classify_temperature, h]
  · intro t h1 h2
    have n1 : ¬ t < 15 := by linarith
    have n2 : ¬ t < 20 := by linarith
    have n3 : ¬ t < 28 := by linarith
    simp [classify_temperature, n1, n2, n3, h2]
  · intro t h
    have n1 : ¬ t < 15 := by linarith
    have n2 : ¬ t < 20 := by linarith
    have n3 : ¬ t < 28 := by linarith
    have n4 : ¬ t < 35 := by linarith
    simp [classify_temperature, n1, n2, n3, n4]

/-- Closed witness for the temperature classifier claim at concrete
inputs. -/
theorem classify_temperature_bands_witness :
    classify_temperature 10 = "Cold" ∧
    classify_temperature 30 = "Warm" ∧
    classify_temperature 40 = "Hot" :=
  ⟨classify_temperature_bands.1 10 (by norm_num),
   classify_temperature_bands.2.2.1 30 (by norm_num) (by norm_num),
   classify_temperature_bands.2.2.2.1 40 (by norm_num)⟩

/-- Claim C5: pH values outside the interval from 0 to 14 yield Invalid
(for example at -0.1 and 14.1), while in-domain values are banded so
that 5.4 yields Very Acidic and 7.0 yields Neutral. -/
theorem classify_ph_domain :
    (∀ p : ℚ, p < 0 ∨ 14 < p → classify_ph p = "Invalid") ∧
    classify_ph (-0.1 : ℚ) = "Invalid" ∧
    classify_ph (14.1 : ℚ) = "Invalid" ∧
    classify_ph 7 = "Neutral" ∧
    classify_ph (5.4 : ℚ) = "Very Acidic" := by
  refine ⟨?_, by norm_num [classify_ph], by norm_num [classify_ph],
    by norm_num [classify_ph], by norm_num [classify_ph]⟩
  intro p h
  unfold classify_ph
  rw [if_pos h]

/-- Closed witness for the pH classifier claim at a concrete
out-of-domain input. -/
theorem classify_ph_domain_witness : classify_ph (-1) = "Invalid" :=
  classify_ph_domain.1 (-1) (Or.inl (by norm_num))

/-- Claim C6: the weather-code lookup is total over the integers; code 0
maps to Clear sky with a sun symbol, and every integer not in the
enumerated WMO subset, including negative values, maps to the fallback
pair Unknown with an empty symbol. -/
theorem describe_weather_total :
    describe_weather 0 = ("Clear sky", "☀️") ∧
    (∀ c : ℤ, c ∉ wmoCodes → describe_weather c = ("Unknown", "")) ∧
    describe_weather 999 = ("Unknown", "") ∧
    describe_weather (-5) = ("Unknown", "") := by
  refine ⟨rfl, ?_, by decide, by decide⟩
  intro c hc
  simp only [wmoCodes, List.mem_cons, List.not_mem_nil, or_false, not_or] at hc
  obtain ⟨h0, h1, h2, h3, h45, h48, h51, h53, h55, h61, h63, h65, h80, h81, h82, h95⟩ := hc
  simp [describe_weather, h0, h1, h2, h3, h45, h48, h51, h53, h55, h61, h63, h65,
    h80, h81, h82, h95]

/-- Closed witness for the weather-code fallback at a concrete unmapped
code. -/
theorem describe_weather_total_witness : describe_weather 1000 = ("Unknown", "") :=
  describe_weather_total.2.1 1000 (by decide)

/-- Claim C8: every core function is referentially transparent: two
calls with identical inputs yield identical outputs.  In this embedding
each function is a pure function of its arguments alone, with no ambient
state and no side effects. -/
theorem core_referentially_transparent (raw a b t h p : ℚ) (code : ℤ) :
    calibrate raw a b = calibrate raw a b ∧
    classify_temperature t = classify_temperature t ∧
    classify_humidity h = classify_humidity h ∧
    classify_ph p = classify_ph p ∧
    describe_weather code = describe_weather code :=
  ⟨rfl, rfl, rfl, rfl, rfl⟩

/-- Claim C7: on any fetch-layer failure (caught exception, missing or
empty feeds field) the ThingSpeak fetch returns an empty DataFrame
instead of raising, the presentation layer then shows the no-data
placeholder, and the weather fetch returns an empty dict on request
failure. -/
theorem fetch_fails_closed :
    (∀ e : FetchError, get_thingspeak_data (.error e) = []) ∧
    (∀ d : TSResponse, d.feeds = none → get_thingspeak_data (.ok d) = []) ∧
    (∀ d : TSResponse, d.feeds = some [] → get_thingspeak_data (.ok d) = []) ∧
    (∀ df : List Row, df = [] → shows_no_data_placeholder df = true) ∧
    (∀ e : Unit, get_weather_data (.error e) = []) := by
  refine ⟨fun e => rfl, ?_, ?_, ?_, fun e => rfl⟩
  · intro d hd
    simp [get_thingspeak_data, hd]
  · intro d hd
    simp [get_thingspeak_data, hd]
  · intro df hdf
    simp [shows_no_data_placeholder, hdf]

/-- Closed witness for the fail-closed claim at concrete failing
inputs. -/
theorem fetch_fails_closed_witness :
    get_thingspeak_data (.ok ⟨none⟩) = [] ∧
    get_thingspeak_data (.ok ⟨some []⟩) = [] ∧
    shows_no_data_placeholder [] = true :=
  ⟨fetch_fails_closed.2.1 ⟨none⟩ rfl,
   fetch_fails_closed.2.2.1 ⟨some []⟩ rfl,
   fetch_fails_closed.2.2.2.1 [] rfl⟩

/-- Claim C9: every row returned by the ThingSpeak fetch has non-null
Temperature, Humidity and Soil_Moisture, but a returned row may still
have a missing pH value, since pH is excluded from the dropna subset. -/
theorem returned_rows_essential_nonnull :
    (∀ resp : Except FetchError TSResponse, ∀ r ∈ get_thingspeak_data resp,
      r.Temperature.isSome = true ∧ r.Humidity.isSome = true ∧
        r.Soil_Moisture.isSome = true) ∧
    get_thingspeak_data (.ok ⟨some [⟨0, some 25, some 50, some 400, none⟩]⟩) =
      [⟨0, some 25, some 50, some 400, none⟩] := by
  constructor
  · intro resp r hr
    cases resp with
    | error e => simp [get_thingspeak_data] at hr
    | ok d =>
      rcases hf : d.feeds with _ | fs
      · simp [get_thingspeak_data, hf] at hr
      · cases fs with
        | nil => simp [get_thingspeak_data, hf] at hr
        | cons f fs =>
          simp only [get_thingspeak_data, hf, dropna, List.mem_filter] at hr
          have hcond := hr.2
          rw [Bool.and_eq_true, Bool.and_eq_true] at hcond
          exact ⟨hcond.1.1, hcond.1.2, hcond.2⟩
  · rfl

/-- Closed witness applying the non-null invariant to a concrete fetched
row whose pH is missing. -/
theorem returned_rows_essential_nonnull_witness :
    (⟨0, some 25, some 50, some 400, none⟩ : Row).Temperature.isSome = true ∧
    (⟨0, some 25, some 50, some 400, none⟩ : Row).Humidity.isSome = true ∧
    (⟨0, some 25, some 50, some 400, none⟩ : Row).Soil_Moisture.isSome = true :=
  returned_rows_essential_nonnull.1
    (.ok ⟨some [⟨0, some 25, some 50, some 400, none⟩]⟩)
    ⟨0, some 25, some 50, some 400, none⟩ (by decide)

/-- Claim C10: for a complete two-date range the filter is inclusive of
the end date: a row is kept exactly when its timestamp lies between the
start of the start date and the start of the day after the end date
(one day added to the end timestamp), so a reading timestamped anywhere
on the end date is included. -/
theorem date_filter_inclusive (rows : List Row) (startDay endDay : ℤ) (r : Row) :
    (r ∈ filterByDateRange rows startDay endDay ↔
      r ∈ rows ∧ startDay ≤ r.created_at ∧
        r.created_at ≤ endDay + secondsPerDay) ∧
    (r ∈ rows → startDay ≤ r.created_at → endDay ≤ r.created_at →
      r.created_at < endDay + secondsPerDay →
        r ∈ filterByDateRange rows startDay endDay) := by
  have hiff : r ∈ filterByDateRange rows startDay endDay ↔
      r ∈ rows ∧ startDay ≤ r.created_at ∧
        r.created_at ≤ endDay + secondsPerDay := by
    simp [filterByDateRange, List.mem_filter, and_assoc]
  exact ⟨hiff, fun hmem hs _ hlt => hiff.mpr ⟨hmem, hs, le_of_lt hlt⟩⟩

/-- Closed witness for end-date inclusivity: a reading five seconds into
the end date is kept by the filter. -/
theorem date_filter_inclusive_witness :
    (⟨86405, some 1, some 1, some 1, some 1⟩ : Row) ∈
      filterByDateRange [⟨86405, some 1, some 1, some 1, some 1⟩] 0 86400 :=
  (date_filter_inclusive [⟨86405, some 1, some 1, some 1, some 1⟩] 0 86400
      ⟨86405, some 1, some 1, some 1, some 1⟩).2
    (by decide) (by decide) (by decide) (by decide)

end GharKheti
